import Mathlib

/-!
Verification of the Sepsis-Prediction-Engine repository.

The repository ships a React frontend (vital simulators, realtime prediction
streams, status badges), the Supabase SQL schema for the vitals,
risk_assessments and vital_predictions tables, and an architecture document
for the Python backend pipeline (feature engineer, clinical rule engine,
probability scorer, hybrid fusion policy, autoregressive forecaster,
ingestion poller).  The backend pipeline source itself is not part of the
checked-in tree; where a claim is decided by that missing code, the
corresponding definition below is modelled from the specification (and from
the thresholds that do appear in the tree: backend/ARCHITECTURE.md and the
frontend THRESHOLDS table), and is marked as such in its doc comment.
Frontend logic (DemoVitalSimulator.generateNextValue,
MLPredictionStream.handlePrediction, RiskStatusBadge.getStatusStyle) is
embedded directly from the JavaScript source.

Numeric vitals and probabilities are modelled as rationals; JavaScript
Math.round is modelled as the floor of x + 1/2, which agrees with its
behaviour on all inputs.
-/

namespace SepsisEngine

/-- A vitals reading as stored in the vitals table (supabase_schema.sql plus
the phase-1 migration): any vital field may be absent. -/
structure VitalsReading where
  heart_rate : Option ℚ
  spo2 : Option ℚ
  systolic_bp : Option ℚ
  diastolic_bp : Option ℚ
  respiratory_rate : Option ℚ
  temperature : Option ℚ
  wbc : Option ℚ
  iculos : ℚ
deriving Repr, DecidableEq

/-- Risk levels allowed by the risk_assessments CHECK constraint. -/
inductive RiskLevel
  | LOW
  | HIGH
  | ERROR
deriving Repr, DecidableEq

/-- Modelled from the spec: the Feature Engineer imputes missing vitals with
clinically normal defaults (the stable-phase values documented in the
repository: HR 75, RR 16, temperature 37.0, SpO2 98, SBP 120, DBP 80). -/
def imputeOr (d : ℚ) (v : Option ℚ) : ℚ :=
  v.getD d

/-- The ephemeral feature vector produced by the Feature Engineer. -/
structure FeatureVector where
  hr : ℚ
  resp : ℚ
  temp : ℚ
  spo2 : ℚ
  sbp : ℚ
  dbp : ℚ
  shock_index : ℚ
  meanArterialPressure : ℚ
  iculos : ℚ
deriving Repr, DecidableEq

/-- Modelled from the spec: the Feature Engineer (backend pipeline code not in
the tree).  Missing vitals are imputed with normal defaults; shock index is
HR/SBP guarded to 0 when SBP is non-positive; MAP is DBP + (SBP - DBP)/3.
Total by construction: every field of the result is a defined rational. -/
def featureEngineer (r : VitalsReading) : FeatureVector :=
  let hr := imputeOr 75 r.heart_rate
  let resp := imputeOr 16 r.respiratory_rate
  let temp := imputeOr 37 r.temperature
  let sp := imputeOr 98 r.spo2
  let sbp := imputeOr 120 r.systolic_bp
  let dbp := imputeOr 80 r.diastolic_bp
  { hr := hr
    resp := resp
    temp := temp
    spo2 := sp
    sbp := sbp
    dbp := dbp
    shock_index := if 0 < sbp then hr / sbp else 0
    meanArterialPressure := dbp + (sbp - dbp) / 3
    iculos := r.iculos }

/-- Modelled from the spec: the Clinical Rule Engine qSOFA score (backend code
not in the tree; thresholds corroborated by backend/ARCHITECTURE.md, which
lists Resp >= 22 and SBP <= 100, and by the frontend THRESHOLDS table with
resp_qsofa 22 and sbp_qsofa 100).  Missing vitals are evaluated on their
imputed normal defaults. -/
def qsofaScore (r : VitalsReading) : Nat :=
  (if 22 ≤ imputeOr 16 r.respiratory_rate then 1 else 0) +
  (if imputeOr 120 r.systolic_bp ≤ 100 then 1 else 0)

/-- Modelled from the spec: the Clinical Rule Engine SIRS score (backend code
not in the tree).  Temperature uses the one-sided rule ">38" documented in
backend/ARCHITECTURE.md; respiratory rate > 20 and heart rate > 90 likewise;
the WBC predicate (>12000 or <4000) applies only when a WBC value is present,
an absent WBC contributes 0 and is not imputed. -/
def sirsScore (r : VitalsReading) : Nat :=
  (if 38 < imputeOr 37 r.temperature then 1 else 0) +
  (if 20 < imputeOr 16 r.respiratory_rate then 1 else 0) +
  (if 90 < imputeOr 75 r.heart_rate then 1 else 0) +
  (match r.wbc with
    | none => 0
    | some w => if 12000 < w ∨ w < 4000 then 1 else 0)

/-- Modelled from the spec: the Hybrid Fusion Policy (backend code not in the
tree; branch structure corroborated by the HYBRID SAFETY CHECK diagram in
backend/ARCHITECTURE.md).  If qSOFA >= 2 or SIRS >= 2 the level is forced to
HIGH regardless of the ML probability; otherwise the level is HIGH exactly
when the probability exceeds 1/2; the reported score is always the raw
probability. -/
def hybridFusion (qsofa sirs : Nat) (p : ℚ) : RiskLevel × ℚ :=
  if 2 ≤ qsofa ∨ 2 ≤ sirs then
    (RiskLevel.HIGH, p)
  else if 1/2 < p then
    (RiskLevel.HIGH, p)
  else
    (RiskLevel.LOW, p)

/-- A reading exercising the override branch: qSOFA = 2 (RR 24 >= 22,
SBP 90 <= 100). -/
def overrideReading : VitalsReading :=
  { heart_rate := some 95
    spo2 := some 96
    systolic_bp := some 90
    diastolic_bp := some 60
    respiratory_rate := some 24
    temperature := some 39
    wbc := none
    iculos := 1 }

/-- A reading with all vitals normal: qSOFA = 0, SIRS = 0. -/
def normalReading : VitalsReading :=
  { heart_rate := some 75
    spo2 := some 98
    systolic_bp := some 120
    diastolic_bp := some 80
    respiratory_rate := some 16
    temperature := some 37
    wbc := some 8000
    iculos := 1 }

/-- C1: for every VitalsReading whose clinical scores satisfy qSOFA >= 2 or
SIRS >= 2, the Hybrid Fusion Policy returns risk_level = HIGH for every value
of the raw ML probability, and the returned risk_score equals the raw ML
probability unchanged. -/
theorem hybrid_override_forces_high (r : VitalsReading) (p : ℚ)
    (h : 2 ≤ qsofaScore r ∨ 2 ≤ sirsScore r) :
    (hybridFusion (qsofaScore r) (sirsScore r) p).1 = RiskLevel.HIGH ∧
    (hybridFusion (qsofaScore r) (sirsScore r) p).2 = p := by
  rw [hybridFusion, if_pos h]
  exact ⟨rfl, rfl⟩

/-- Witness for C1: the override reading with the scorer forced to return
probability 0.0 still yields risk level HIGH and risk score 0. -/
theorem hybrid_override_forces_high_witness :
    (hybridFusion (qsofaScore overrideReading) (sirsScore overrideReading) 0).1
      = RiskLevel.HIGH ∧
    (hybridFusion (qsofaScore overrideReading) (sirsScore overrideReading) 0).2
      = 0 :=
  hybrid_override_forces_high overrideReading 0 (Or.inl (by decide))

/-- C2: for every VitalsReading with qSOFA < 2 and SIRS < 2, the Hybrid Fusion
Policy returns HIGH iff the raw probability is strictly greater than 1/2 and
LOW otherwise (so probability exactly 1/2 yields LOW), and the returned
risk_score equals the raw probability. -/
theorem hybrid_standard_branch (r : VitalsReading) (p : ℚ)
    (hq : qsofaScore r < 2) (hs : sirsScore r < 2) :
    ((hybridFusion (qsofaScore r) (sirsScore r) p).1 = RiskLevel.HIGH ↔ 1/2 < p) ∧
    ((hybridFusion (qsofaScore r) (sirsScore r) p).1 = RiskLevel.LOW ↔ p ≤ 1/2) ∧
    (hybridFusion (qsofaScore r) (sirsScore r) p).2 = p := by
  have hnot : ¬ (2 ≤ qsofaScore r ∨ 2 ≤ sirsScore r) := by
    rintro (h | h)
    · exact absurd h (Nat.not_le.mpr hq)
    · exact absurd h (Nat.not_le.mpr hs)
  rw [hybridFusion, if_neg hnot]
  by_cases hp : 1/2 < p
  · rw [if_pos hp]
    refine ⟨⟨fun _ => hp, fun _ => rfl⟩, ⟨fun h => ?_, fun h => ?_⟩, rfl⟩
    · exact absurd h (by simp)
    · exact absurd hp (not_lt.mpr h)
  · rw [if_neg hp]
    refine ⟨⟨fun h => ?_, fun h => absurd h hp⟩, ⟨fun _ => not_lt.mp hp, fun _ => rfl⟩, rfl⟩
    · exact absurd h (by simp)

/-- Witness for C2: the all-normal reading with probability exactly 1/2 yields
risk level LOW and risk score 1/2. -/
theorem hybrid_standard_branch_witness :
    ((hybridFusion (qsofaScore normalReading) (sirsScore normalReading) (1/2)).1
        = RiskLevel.LOW ↔ (1:ℚ)/2 ≤ 1/2) ∧
    (hybridFusion (qsofaScore normalReading) (sirsScore normalReading) (1/2)).2
      = 1/2 :=
  ⟨(hybrid_standard_branch normalReading (1/2) (by decide) (by decide)).2.1,
   (hybrid_standard_branch normalReading (1/2) (by decide) (by decide)).2.2⟩

/-- C6: the qSOFA score counts exactly two predicates, respiratory rate >= 22
and systolic BP <= 100 (both boundaries inclusive); no other vital affects
it, and the score is always at most 2 (so it lies in 0, 1, 2). -/
theorem qsofa_counts_two_predicates :
    (∀ r : VitalsReading, qsofaScore r ≤ 2) ∧
    (∀ r : VitalsReading,
      qsofaScore r =
        ([decide (22 ≤ imputeOr 16 r.respiratory_rate),
          decide (imputeOr 120 r.systolic_bp ≤ 100)].countP id)) ∧
    (∀ r₁ r₂ : VitalsReading,
      r₁.respiratory_rate = r₂.respiratory_rate →
      r₁.systolic_bp = r₂.systolic_bp →
      qsofaScore r₁ = qsofaScore r₂) ∧
    (∀ r : VitalsReading,
      r.respiratory_rate = some 22 → r.systolic_bp = some 100 →
      qsofaScore r = 2) := by
  refine ⟨fun r => ?_, fun r => ?_, fun r₁ r₂ hre hsb => ?_, fun r hre hsb => ?_⟩
  · unfold qsofaScore
    split <;> split <;> simp
  · unfold qsofaScore
    simp [List.countP_cons, List.countP_nil]
    split <;> split <;> simp_all
  · unfold qsofaScore
    rw [hre, hsb]
  · unfold qsofaScore
    rw [hre, hsb]
    norm_num [imputeOr]

/-- Witness for C6: the boundary reading with RR exactly 22 and SBP exactly
100 scores qSOFA = 2, and two readings differing only in temperature agree. -/
theorem qsofa_counts_two_predicates_witness :
    qsofaScore
      { heart_rate := some 75
        spo2 := some 98
        systolic_bp := some 100
        diastolic_bp := some 80
        respiratory_rate := some 22
        temperature := some 37
        wbc := none
        iculos := 1 } = 2 :=
  qsofa_counts_two_predicates.2.2.2
    { heart_rate := some 75
      spo2 := some 98
      systolic_bp := some 100
      diastolic_bp := some 80
      respiratory_rate := some 22
      temperature := some 37
      wbc := none
      iculos := 1 } rfl rfl

/-- C7: the SIRS score counts exactly four predicates, temperature > 38 (the
one-sided rule documented in backend/ARCHITECTURE.md), respiratory rate > 20,
heart rate > 90, and, only when a WBC value is present, WBC > 12000 or
WBC < 4000; an absent WBC contributes 0 (it behaves exactly like a normal
in-range WBC) rather than being imputed, and the score is at most 4. -/
theorem sirs_counts_four_predicates :
    (∀ r : VitalsReading, sirsScore r ≤ 4) ∧
    (∀ r : VitalsReading,
      sirsScore r =
        ([decide (38 < imputeOr 37 r.temperature),
          decide (20 < imputeOr 16 r.respiratory_rate),
          decide (90 < imputeOr 75 r.heart_rate),
          (match r.wbc with
            | none => false
            | some w => decide (12000 < w ∨ w < 4000))].countP id)) ∧
    (∀ r : VitalsReading, r.wbc = none → sirsScore r ≤ 3) ∧
    (∀ (r : VitalsReading) (w : ℚ), 4000 ≤ w → w ≤ 12000 →
      sirsScore { r with wbc := some w } = sirsScore { r with wbc := none }) := by
  refine ⟨fun r => ?_, fun r => ?_, fun r hw => ?_, fun r w h₁ h₂ => ?_⟩
  · unfold sirsScore
    split <;> split <;> split <;> rcases r.wbc with _ | w <;> simp <;> split <;> simp
  · unfold sirsScore
    rcases r.wbc with _ | w <;>
      simp [List.countP_cons, List.countP_nil] <;>
      split <;> split <;> split <;> simp_all <;> split <;> simp_all
  · unfold sirsScore
    rw [hw]
    split <;> split <;> split <;> simp
  · unfold sirsScore
    have hw : ¬ (12000 < w ∨ w < 4000) := by
      rintro (h | h)
      · exact absurd h (not_lt.mpr h₂)
      · exact absurd h (not_lt.mpr h₁)
    simp only []
    rw [if_neg hw]

/-- Witness for C7: a reading with WBC absent scores at most 3, and adding a
normal WBC of 8000 leaves the score unchanged. -/
theorem sirs_counts_four_predicates_witness :
    sirsScore { overrideReading with wbc := some 8000 }
      = sirsScore { overrideReading with wbc := none } :=
  sirs_counts_four_predicates.2.2.2 overrideReading 8000 (by norm_num) (by norm_num)

/-- C8: the Feature Engineer is total; its shock index equals HR/SBP exactly
when the imputed systolic BP is strictly positive (stated multiplicatively:
shock index times SBP gives back HR), and is 0 when the imputed systolic BP is
non-positive, so the division-by-zero branch is never taken; an absent
systolic BP is imputed to the positive default, and every field of the
returned FeatureVector is a defined rational by construction. -/
theorem featureEngineer_shock_index_total :
    (∀ r : VitalsReading, 0 < imputeOr 120 r.systolic_bp →
      (featureEngineer r).shock_index * imputeOr 120 r.systolic_bp
        = imputeOr 75 r.heart_rate) ∧
    (∀ r : VitalsReading, imputeOr 120 r.systolic_bp ≤ 0 →
      (featureEngineer r).shock_index = 0) ∧
    (∀ r : VitalsReading, r.systolic_bp = none → 0 < (featureEngineer r).sbp) := by
  refine ⟨fun r h => ?_, fun r h => ?_, fun r h => ?_⟩
  · show (if 0 < imputeOr 120 r.systolic_bp then
        imputeOr 75 r.heart_rate / imputeOr 120 r.systolic_bp else 0) *
        imputeOr 120 r.systolic_bp = imputeOr 75 r.heart_rate
    rw [if_pos h]
    exact div_mul_cancel₀ _ (ne_of_gt h)
  · show (if 0 < imputeOr 120 r.systolic_bp then
        imputeOr 75 r.heart_rate / imputeOr 120 r.systolic_bp else 0) = 0
    rw [if_neg (not_lt.mpr h)]
  · show 0 < imputeOr 120 r.systolic_bp
    rw [h]
    norm_num [imputeOr]

/-- Witness for C8: a reading with SBP recorded as 0 gets shock index 0, and
the all-normal reading's shock index times 120 recovers its HR of 75. -/
theorem featureEngineer_shock_index_total_witness :
    (featureEngineer { normalReading with systolic_bp := some 0 }).shock_index = 0 ∧
    (featureEngineer normalReading).shock_index * 120 = 75 := by
  constructor
  · exact featureEngineer_shock_index_total.2.1
      { normalReading with systolic_bp := some 0 } (by norm_num [imputeOr])
  · have h := featureEngineer_shock_index_total.1 normalReading
      (by norm_num [imputeOr, normalReading])
    simpa [imputeOr, normalReading] using h

/-- Modelled from the spec: the processing state of a VitalsReading as driven
by the Ingestion Poller / Orchestrator (backend watcher code not in the tree;
the vitals table exposes the processed flag it flips and the partial index
WHERE processed = FALSE that its poll uses). -/
inductive ProcState
  | unclaimed
  | claimed
  | processed
  | errored
deriving Repr, DecidableEq

/-- Modelled from the spec: the transitions the orchestrator performs on a
reading's processing state: an atomic claim succeeds only on an unclaimed
reading, and a claimed reading is marked processed on success or errored on
any pipeline failure.  No other operation touches the state. -/
inductive OrchStep : ProcState → ProcState → Prop
  | claim : OrchStep ProcState.unclaimed ProcState.claimed
  | markProcessed : OrchStep ProcState.claimed ProcState.processed
  | markErrored : OrchStep ProcState.claimed ProcState.errored

/-- Rank of a processing state along the monotone path; both terminal states
share the top rank. -/
def stateRank : ProcState → Nat
  | ProcState.unclaimed => 0
  | ProcState.claimed => 1
  | ProcState.processed => 2
  | ProcState.errored => 2

/-- Modelled from the spec: the poll step only selects unclaimed readings
(the schema's partial index WHERE processed = FALSE backs exactly this
filter). -/
def pollEligible (s : ProcState) : Bool :=
  s = ProcState.unclaimed

/-- C4: processing states move only along the monotone path
unclaimed -> claimed -> processed or unclaimed -> claimed -> errored: every
orchestrator step strictly increases the state rank, every step is one of the
path edges, the terminal states processed and errored have no outgoing step,
and neither terminal state is eligible for a later poll cycle. -/
theorem orchestrator_monotone_path :
    (∀ a b : ProcState, OrchStep a b → stateRank a < stateRank b) ∧
    (∀ a b : ProcState, OrchStep a b →
      (a = ProcState.unclaimed ∧ b = ProcState.claimed) ∨
      (a = ProcState.claimed ∧
        (b = ProcState.processed ∨ b = ProcState.errored))) ∧
    (∀ b : ProcState, ¬ OrchStep ProcState.processed b) ∧
    (∀ b : ProcState, ¬ OrchStep ProcState.errored b) ∧
    pollEligible ProcState.processed = false ∧
    pollEligible ProcState.errored = false := by
  refine ⟨fun a b h => ?_, fun a b h => ?_, fun b h => ?_, fun b h => ?_, rfl, rfl⟩
  · cases h <;> simp [stateRank]
  · cases h <;> simp
  · cases h
  · cases h

/-- Witness for C4: the claim step on a concrete unclaimed reading strictly
increases the rank, and it is one of the path edges. -/
theorem orchestrator_monotone_path_witness :
    stateRank ProcState.unclaimed < stateRank ProcState.claimed ∧
    ((ProcState.unclaimed = ProcState.unclaimed ∧
        ProcState.claimed = ProcState.claimed) ∨
      (ProcState.unclaimed = ProcState.claimed ∧
        (ProcState.claimed = ProcState.processed ∨
          ProcState.claimed = ProcState.errored))) :=
  ⟨orchestrator_monotone_path.1 ProcState.unclaimed ProcState.claimed OrchStep.claim,
   orchestrator_monotone_path.2.1 ProcState.unclaimed ProcState.claimed OrchStep.claim⟩

/-- One forecasted vital vector, as persisted in the vital_predictions table:
predicted HR, respiratory rate, temperature, SBP and O2 saturation. -/
structure PredictedVitals where
  hr : ℚ
  resp : ℚ
  temp : ℚ
  sbp : ℚ
  o2sat : ℚ
deriving Repr, DecidableEq

/-- One row of the vital_predictions table for a simulation: a 1-based
sequence index, the predicted vitals, and the fused risk verdict at that
step. -/
structure VitalPrediction where
  sequence_index : Nat
  vitals : PredictedVitals
  risk_level : RiskLevel
  risk_score : ℚ
deriving Repr, DecidableEq

/-- Lift a predicted vital vector back into a VitalsReading so the forecast
step can be run through Feature Engineer, Rule Engine, Scorer and Fusion. -/
def predictionToReading (v : PredictedVitals) (iculos : ℚ) : VitalsReading :=
  { heart_rate := some v.hr
    spo2 := some v.o2sat
    systolic_bp := some v.sbp
    diastolic_bp := none
    respiratory_rate := some v.resp
    temperature := some v.temp
    wbc := none
    iculos := iculos }

/-- Modelled from the spec: the forecast horizon is fixed at 5 steps. -/
def forecastHorizon : Nat := 5

/-- Modelled from the spec: the Forecaster's iteration (backend code not in
the tree).  Starting at sequence index i, it applies the opaque
autoregressive model n more times, and at each step reruns the pipeline
(features, rules, scorer, fusion) on the predicted vitals to attach a risk
verdict. -/
def forecastFrom (model : PredictedVitals → PredictedVitals)
    (scorer : FeatureVector → ℚ) (iculos : ℚ) :
    Nat → Nat → PredictedVitals → List VitalPrediction
  | 0, _, _ => []
  | Nat.succ n, i, v =>
      let v1 := model v
      let r := predictionToReading v1 iculos
      let p := scorer (featureEngineer r)
      let fused := hybridFusion (qsofaScore r) (sirsScore r) p
      { sequence_index := i
        vitals := v1
        risk_level := fused.1
        risk_score := fused.2 } :: forecastFrom model scorer iculos n (i + 1) v1

/-- Modelled from the spec: the Forecaster entry point, producing the 5-step
trajectory persisted under one simulation identifier, 1-indexed. -/
def forecaster (model : PredictedVitals → PredictedVitals)
    (scorer : FeatureVector → ℚ) (v0 : PredictedVitals) (iculos : ℚ) :
    List VitalPrediction :=
  forecastFrom model scorer iculos forecastHorizon 1 v0

/-- The sequence indices produced by forecastFrom starting at i for n steps
are exactly the n consecutive naturals from i. -/
theorem forecastFrom_indices (model : PredictedVitals → PredictedVitals)
    (scorer : FeatureVector → ℚ) (iculos : ℚ) :
    ∀ (n i : Nat) (v : PredictedVitals),
      (forecastFrom model scorer iculos n i v).map VitalPrediction.sequence_index
        = List.range' i n := by
  intro n
  induction n with
  | zero => intro i v; rfl
  | succ n ih =>
      intro i v
      rw [forecastFrom, List.range']
      simp only [List.map_cons]
      rw [ih]

/-- C5: for every model, scorer, seed vitals and admission hour, a successful
pipeline run persists exactly 5 VitalPredictions for its simulation
identifier, whose sequence indices are exactly 1,2,3,4,5 in order, with no
gaps and no duplicates. -/
theorem forecaster_five_steps (model : PredictedVitals → PredictedVitals)
    (scorer : FeatureVector → ℚ) (v0 : PredictedVitals) (iculos : ℚ) :
    (forecaster model scorer v0 iculos).length = 5 ∧
    (forecaster model scorer v0 iculos).map VitalPrediction.sequence_index
      = [1, 2, 3, 4, 5] ∧
    ((forecaster model scorer v0 iculos).map
        VitalPrediction.sequence_index).Nodup := by
  have h := forecastFrom_indices model scorer iculos forecastHorizon 1 v0
  refine ⟨?_, ?_, ?_⟩
  · have := congrArg List.length h
    rwa [List.length_map, List.length_range'] at this
  · rw [forecaster, h]
    rfl
  · rw [forecaster, h]
    decide

/-- The inline style object returned by RiskStatusBadge's getStatusStyle. -/
structure StatusStyle where
  bg : String
  color : String
  border : String
deriving Repr, DecidableEq

/-- JavaScript String.prototype.toLowerCase restricted to the ASCII status
strings this component receives: each character in A..Z is shifted to its
lowercase counterpart, all other characters are unchanged. -/
def jsLowerChar (c : Char) : Char :=
  if c.toNat ≥ 65 ∧ c.toNat ≤ 90 then Char.ofNat (c.toNat + 32) else c

/-- Lowercase a status string character by character. -/
def jsToLower (s : String) : String :=
  String.mk (s.data.map jsLowerChar)

/-- Embedded from RiskStatusBadge.getStatusStyle: a switch on the lowercased
status string; stable and low share the green style, moderate is yellow, high
and critical share the red style, and every other status falls through to the
default green style. -/
def getStatusStyle (status : String) : StatusStyle :=
  match jsToLower status with
  | "stable" => ⟨"rgba(0, 255, 0, 0.15)", "#00ff00", "rgba(0, 255, 0, 0.3)"⟩
  | "low" => ⟨"rgba(0, 255, 0, 0.15)", "#00ff00", "rgba(0, 255, 0, 0.3)"⟩
  | "moderate" => ⟨"rgba(255, 255, 0, 0.15)", "#ffff00", "rgba(255, 255, 0, 0.3)"⟩
  | "high" => ⟨"rgba(255, 68, 68, 0.15)", "#ff4444", "rgba(255, 68, 68, 0.3)"⟩
  | "critical" => ⟨"rgba(255, 68, 68, 0.15)", "#ff4444", "rgba(255, 68, 68, 0.3)"⟩
  | _ => ⟨"rgba(0, 255, 0, 0.15)", "#00ff00", "rgba(0, 255, 0, 0.3)"⟩

/-- C3 fails on the code: rendering an assessment whose risk_level is ERROR
(a value the risk_assessments CHECK constraint allows) takes getStatusStyle's
default branch and yields exactly the green display style used for LOW and
for stable, so the ERROR terminal state is presented the same way as a
low/stable one. -/
theorem getStatusStyle_error_rendered_as_low :
    getStatusStyle "ERROR" = getStatusStyle "LOW" ∧
    getStatusStyle "ERROR" = getStatusStyle "Stable" := by
  constructor <;> decide

/-- The vital channels generated by DemoVitalSimulator. -/
inductive VitalType
  | heart_rate
  | respiratory_rate
  | temperature
  | spo2
  | systolic_bp
  | diastolic_bp
deriving Repr, DecidableEq

/-- JavaScript Math.round, modelled on rationals as the floor of x + 1/2
(Mathlib's round), which matches Math.round on every input including
negative halves. -/
def jsRound (x : ℚ) : ℚ :=
  (round x : ℤ)

/-- Embedded from DemoVitalSimulator.generateNextValue: move the current
value 15 percent toward the phase target, add a random variance drawn as
(rand - 1/2) * 2 * variance for rand in [0, 1), round (temperature to one
decimal, the rest to integers), and clamp SpO2 to at most 100. -/
def generateNextValue (vitalType : VitalType)
    (current target variance rand : ℚ) : ℚ :=
  let diff := target - current
  let step := diff * (15 / 100)
  let randomVariance := (rand - 1/2) * 2 * variance
  let newValue := current + step + randomVariance
  let rounded :=
    if vitalType = VitalType.temperature then jsRound (newValue * 10) / 10
    else jsRound newValue
  if vitalType = VitalType.spo2 then min 100 rounded else rounded

/-- C9: generateNextValue clamps SpO2 after every update step, so for every
current value, every phase target and variance, and every random draw, the
emitted spo2 value is at most 100. -/
theorem generateNextValue_spo2_le_100 (current target variance rand : ℚ) :
    generateNextValue VitalType.spo2 current target variance rand ≤ 100 := by
  simp only [generateNextValue, reduceCtorEq, if_false, if_true, reduceIte]
  exact min_le_left _ _

/-- A row of the vital_predictions table as delivered to
MLPredictionStream.handlePrediction; any numeric column may be null. -/
structure PredictionRow where
  hr_predicted : Option ℚ
  resp_predicted : Option ℚ
  temp_predicted : Option ℚ
  sbp_predicted : Option ℚ
  o2sat_predicted : Option ℚ
  risk_score : Option ℚ
  sequence_index : Nat
deriving Repr, DecidableEq

/-- The phase labels handlePrediction attaches to emitted data points. -/
inductive Phase
  | stable
  | earlyWarning
  | deteriorating
  | critical
deriving Repr, DecidableEq

/-- Alert severities used by handlePrediction. -/
inductive AlertLevel
  | CRITICAL
  | WARNING
deriving Repr, DecidableEq

/-- The alert object handlePrediction emits (type and level fields; message
and timestamp are presentation-only). -/
structure SepsisAlert where
  alertType : String
  level : AlertLevel
deriving Repr, DecidableEq

/-- Embedded from MLPredictionStream.handlePrediction: a null risk_score is
coerced to 0, then the phase is critical above 0.7, deteriorating above 0.5,
earlyWarning above 0.3, and stable otherwise. -/
def handlePredictionPhase (row : PredictionRow) : Phase :=
  let riskScore := row.risk_score.getD 0
  if 7/10 < riskScore then Phase.critical
  else if 1/2 < riskScore then Phase.deteriorating
  else if 3/10 < riskScore then Phase.earlyWarning
  else Phase.stable

/-- Embedded from MLPredictionStream.handlePrediction: a SEPSIS_RISK alert is
emitted exactly when the (null-coerced) risk score exceeds 0.5, with level
CRITICAL above 0.7 and WARNING otherwise. -/
def handlePredictionAlert (row : PredictionRow) : Option SepsisAlert :=
  let riskScore := row.risk_score.getD 0
  if 1/2 < riskScore then
    some { alertType := "SEPSIS_RISK"
           level := if 7/10 < riskScore then AlertLevel.CRITICAL
                    else AlertLevel.WARNING }
  else none

/-- C10: for every incoming prediction row, the emitted phase is a function of
risk_score alone, with critical iff score > 0.7, deteriorating iff
0.5 < score <= 0.7, earlyWarning iff 0.3 < score <= 0.5 and stable otherwise;
a missing score behaves exactly like score 0; and a SEPSIS_RISK alert is
emitted iff score > 0.5, with level CRITICAL exactly when score > 0.7 and
WARNING otherwise. -/
theorem handlePrediction_phase_and_alert :
    (∀ r₁ r₂ : PredictionRow, r₁.risk_score = r₂.risk_score →
      handlePredictionPhase r₁ = handlePredictionPhase r₂ ∧
      handlePredictionAlert r₁ = handlePredictionAlert r₂) ∧
    (∀ row : PredictionRow,
      (handlePredictionPhase row = Phase.critical ↔
        7/10 < row.risk_score.getD 0) ∧
      (handlePredictionPhase row = Phase.deteriorating ↔
        (1/2 < row.risk_score.getD 0 ∧ row.risk_score.getD 0 ≤ 7/10)) ∧
      (handlePredictionPhase row = Phase.earlyWarning ↔
        (3/10 < row.risk_score.getD 0 ∧ row.risk_score.getD 0 ≤ 1/2)) ∧
      (handlePredictionPhase row = Phase.stable ↔
        row.risk_score.getD 0 ≤ 3/10)) ∧
    (∀ row : PredictionRow,
      (handlePredictionAlert row).isSome ↔ 1/2 < row.risk_score.getD 0) ∧
    (∀ (row : PredictionRow) (a : SepsisAlert),
      handlePredictionAlert row = some a →
      a.alertType = "SEPSIS_RISK" ∧
      (a.level = AlertLevel.CRITICAL ↔ 7/10 < row.risk_score.getD 0)) ∧
    (∀ row : PredictionRow, row.risk_score = none →
      handlePredictionPhase row
        = handlePredictionPhase { row with risk_score := some 0 } ∧
      handlePredictionAlert row
        = handlePredictionAlert { row with risk_score := some 0 }) := by
  refine ⟨fun r₁ r₂ h => ?_, fun row => ?_, fun row => ?_, fun row a h => ?_,
    fun row h => ?_⟩
  · rw [handlePredictionPhase, handlePredictionAlert,
      handlePredictionPhase, handlePredictionAlert, h]
    exact ⟨rfl, rfl⟩
  · rw [handlePredictionPhase]
    split_ifs with h1 h2 h3
    · exact ⟨iff_of_true rfl h1,
        iff_of_false (by decide) (fun hc => absurd h1 (not_lt.mpr hc.2)),
        iff_of_false (by decide)
          (fun hc => absurd h1 (not_lt.mpr (hc.2.trans (by norm_num)))),
        iff_of_false (by decide)
          (fun hc => absurd h1 (not_lt.mpr (hc.trans (by norm_num))))⟩
    · exact ⟨iff_of_false (by decide) h1,
        iff_of_true rfl ⟨h2, not_lt.mp h1⟩,
        iff_of_false (by decide) (fun hc => absurd h2 (not_lt.mpr hc.2)),
        iff_of_false (by decide)
          (fun hc => absurd h2 (not_lt.mpr (hc.trans (by norm_num))))⟩
    · exact ⟨iff_of_false (by decide) h1,
        iff_of_false (by decide) (fun hc => h2 hc.1),
        iff_of_true rfl ⟨h3, not_lt.mp h2⟩,
        iff_of_false (by decide) (fun hc => absurd h3 (not_lt.mpr hc))⟩
    · exact ⟨iff_of_false (by decide) h1,
        iff_of_false (by decide) (fun hc => h2 hc.1),
        iff_of_false (by decide) (fun hc => h3 hc.1),
        iff_of_true rfl (not_lt.mp h3)⟩
  · rw [handlePredictionAlert]
    split_ifs with h1 h2
    · exact iff_of_true rfl h1
    · exact iff_of_true rfl h1
    · exact iff_of_false (by simp) h1
  · rw [handlePredictionAlert] at h
    split_ifs at h with h1 h2
    · cases h
      exact ⟨rfl, iff_of_true rfl h2⟩
    · cases h
      exact ⟨rfl, iff_of_false (by decide) h2⟩
  · rw [handlePredictionPhase, handlePredictionAlert,
      handlePredictionPhase, handlePredictionAlert, h]
    exact ⟨rfl, rfl⟩

/-- Witness for C10: a concrete row with risk score 0.6 produces phase
deteriorating and a WARNING alert whose level is not CRITICAL, and the same
row with a null score behaves like score 0. -/
theorem handlePrediction_phase_and_alert_witness :
    (SepsisAlert.mk "SEPSIS_RISK" AlertLevel.WARNING).alertType = "SEPSIS_RISK" ∧
    ((SepsisAlert.mk "SEPSIS_RISK" AlertLevel.WARNING).level = AlertLevel.CRITICAL ↔
      7/10 < (Option.getD (some ((6:ℚ)/10)) 0)) :=
  handlePrediction_phase_and_alert.2.2.2.1
    { hr_predicted := some 80
      resp_predicted := some 18
      temp_predicted := some 37
      sbp_predicted := some 110
      o2sat_predicted := some 97
      risk_score := some (6/10)
      sequence_index := 1 }
    (SepsisAlert.mk "SEPSIS_RISK" AlertLevel.WARNING)
    (by norm_num [handlePredictionAlert])

end SepsisEngine
